import Mathlib

/-!
Verification of the `tenable.io` session layer (`src/tenable/io/__init__.py`).

Python string-keyed dicts are embedded as association lists with
first-match lookup and in-place update (an update of an existing key keeps
its position, a new key is appended, mirroring insertion order).
-/

set_option autoImplicit false

/-- First-match lookup, the embedding of Python `d[k]` / `d.get(k)`. -/
def dget {α : Type} : List (String × α) → String → Option α
  | [], _ => none
  | (k₀, v₀) :: rest, k => if k₀ = k then some v₀ else dget rest k

/-- In-place update, the embedding of Python `d[k] = v`: replace the value at
the first occurrence of `k`, or append the pair when `k` is absent. -/
def dset {α : Type} : List (String × α) → String → α → List (String × α)
  | [], k, v => [(k, v)]
  | (k₀, v₀) :: rest, k, v =>
    if k₀ = k then (k₀, v) :: rest else (k₀, v₀) :: dset rest k v

theorem dget_dset_self {α : Type} (d : List (String × α)) (k : String) (v : α) :
    dget (dset d k v) k = some v := by
  induction d with
  | nil => simp [dget, dset]
  | cons hd tl ih =>
    obtain ⟨k₀, v₀⟩ := hd
    by_cases h : k₀ = k
    · simp [dget, dset, h]
    · simp [dget, dset, h, ih]

theorem dget_dset_ne {α : Type} (d : List (String × α)) (k k' : String) (v : α)
    (h : k' ≠ k) : dget (dset d k v) k' = dget d k' := by
  have h2 : ¬ k = k' := fun hh => h hh.symm
  induction d with
  | nil => simp [dget, dset, h2]
  | cons hd tl ih =>
    obtain ⟨k₀, v₀⟩ := hd
    by_cases h₀ : k₀ = k
    · subst h₀
      simp [dget, dset, h2]
    · simp [dget, dset, h₀, ih]

/-- Headers of an HTTP request or response: a Python str→str dict. -/
def Headers : Type := List (String × String)

instance : DecidableEq Headers := by
  unfold Headers
  infer_instance

/-- A `requests` response, reduced to the two fields the session layer
reads: the status code and the response headers. -/
structure Response where
  status : Nat
  headers : List (String × String)
  deriving DecidableEq

/-- The `X-APIKeys` header value built at
`src/tenable/io/__init__.py:259`: `'accessKey={}; secretKey={};'.format(self._access_key, self._secret_key)`. -/
def apiKeysHeader (access_key secret_key : String) : String :=
  "accessKey=" ++ access_key ++ "; secretKey=" ++ secret_key ++ ";"

/-- `TenableIO._build_session` (`src/tenable/io/__init__.py:253-261`): the
base-class builder produces some session headers (here an arbitrary
`baseHeaders`, since `tenable.base.APISession._build_session` only adds
unrelated defaults), then `self._session.headers.update({'X-APIKeys': ...})`
is applied on top. -/
def build_session (baseHeaders : List (String × String)) (access_key secret_key : String) :
    List (String × String) :=
  dset baseHeaders "X-APIKeys" (apiKeysHeader access_key secret_key)

/-- C1: after `_build_session` runs, the session headers map `'X-APIKeys'` to
exactly `'accessKey=<access_key>; secretKey=<secret_key>;'` built from the two
constructor arguments, whatever headers the base class installed. -/
theorem build_session_api_keys (baseHeaders : List (String × String))
    (access_key secret_key : String) :
    dget (build_session baseHeaders access_key secret_key) "X-APIKeys" =
      some ("accessKey=" ++ access_key ++ "; secretKey=" ++ secret_key ++ ";") :=
  dget_dset_self baseHeaders "X-APIKeys" (apiKeysHeader access_key secret_key)

/-- A Python value stored in the `**kwargs` dict handed to the requests
session: the session layer only ever inspects the `'headers'` entry (a
str→str dict); every other value is left untouched, so it is abstracted as
an opaque tag. -/
inductive PyVal where
  | str (s : String)
  | dict (d : List (String × String))
  | other (tag : Nat)
  deriving DecidableEq

/-- The keyword-argument dict of a request. -/
def Kwargs : Type := List (String × PyVal)

instance : DecidableEq Kwargs := by
  unfold Kwargs
  infer_instance

/-- `if 'headers' not in kwargs: kwargs['headers'] = dict()`
(`src/tenable/io/__init__.py:238-239`). -/
def ensureHeaders (kwargs : Kwargs) : Kwargs :=
  match dget kwargs "headers" with
  | none => dset kwargs "headers" (PyVal.dict [])
  | some _ => kwargs

/-- The str→str dict stored under `'headers'`, when there is one. -/
def kwHeaders (kwargs : Kwargs) : Option (List (String × String)) :=
  match dget kwargs "headers" with
  | some (PyVal.dict d) => some d
  | _ => none

/-- `if 'X-Request-Uuid' in response.headers: kwargs['headers']['X-Tio-Last-Request-Uuid'] = response.headers['X-Request-Uuid']`
(`src/tenable/io/__init__.py:241-245`). -/
def addCorrelation (respHeaders : List (String × String))
    (h : List (String × String)) : List (String × String) :=
  match dget respHeaders "X-Request-Uuid" with
  | some v => dset h "X-Tio-Last-Request-Uuid" v
  | none => h

/-- `TenableIO._retry_request` (`src/tenable/io/__init__.py:234-250`).
Returns `none` when the existing `'headers'` entry is not a dict, where the
Python code would raise a `TypeError` on item assignment. -/
def retry_request (response : Response) (retries : Nat) (kwargs : Kwargs) :
    Option Kwargs :=
  let kwargs := ensureHeaders kwargs
  match kwHeaders kwargs with
  | some h =>
    some (dset kwargs "headers"
      (PyVal.dict (dset (addCorrelation response.headers h)
        "X-Tio-Retry-Count" (toString retries))))
  | none => none

/-- `kwargs` is the shape `_retry_request` expects: if a `'headers'` entry is
present it is a dict. -/
def headersWF (kwargs : Kwargs) : Bool :=
  match dget kwargs "headers" with
  | some (PyVal.str _) => false
  | some (PyVal.other _) => false
  | _ => true

theorem retry_request_eq (response : Response) (retries : Nat) (kwargs : Kwargs)
    (h0 : List (String × String))
    (hh : dget (ensureHeaders kwargs) "headers" = some (PyVal.dict h0)) :
    retry_request response retries kwargs =
      some (dset (ensureHeaders kwargs) "headers"
        (PyVal.dict (dset (addCorrelation response.headers h0)
          "X-Tio-Retry-Count" (toString retries)))) := by
  have hkw : kwHeaders (ensureHeaders kwargs) = some h0 := by
    unfold kwHeaders
    rw [hh]
  unfold retry_request
  simp only [hkw]

theorem ensureHeaders_dict (kwargs : Kwargs) (hwf : headersWF kwargs = true) :
    ∃ h0, dget (ensureHeaders kwargs) "headers" = some (PyVal.dict h0) ∧
      (dget kwargs "headers" = some (PyVal.dict h0) ∨
        (dget kwargs "headers" = none ∧ h0 = [])) := by
  unfold headersWF at hwf
  unfold ensureHeaders
  cases hk : dget kwargs "headers" with
  | none => exact ⟨[], dget_dset_self kwargs "headers" (PyVal.dict []), Or.inr ⟨rfl, rfl⟩⟩
  | some v =>
    cases v with
    | str s => rw [hk] at hwf; simp at hwf
    | other t => rw [hk] at hwf; simp at hwf
    | dict d => exact ⟨d, hk, Or.inl rfl⟩

theorem dget_addCorrelation_ne (rh h : List (String × String)) (k : String)
    (hk : k ≠ "X-Tio-Last-Request-Uuid") :
    dget (addCorrelation rh h) k = dget h k := by
  unfold addCorrelation
  cases hru : dget rh "X-Request-Uuid" with
  | none => rfl
  | some v => exact dget_dset_ne h _ k v hk

/-- C4: for every response, retry count `n` and kwargs, `_retry_request`
returns a dict with a `'headers'` entry (freshly created when kwargs had
none) whose `'X-Tio-Retry-Count'` key maps to the decimal string of `n`. -/
theorem retry_request_retry_count (response : Response) (n : Nat) (kwargs : Kwargs)
    (hwf : headersWF kwargs = true) :
    ∃ kw hdrs, retry_request response n kwargs = some kw ∧
      dget kw "headers" = some (PyVal.dict hdrs) ∧
      dget hdrs "X-Tio-Retry-Count" = some (toString n) := by
  obtain ⟨h0, hh, _⟩ := ensureHeaders_dict kwargs hwf
  exact ⟨_, _, retry_request_eq response n kwargs h0 hh,
    dget_dset_self _ _ _, dget_dset_self _ _ _⟩

/-- Witness for `retry_request_retry_count` at a kwargs dict with no
`'headers'` entry. -/
theorem retry_request_retry_count_witness :
    headersWF ([] : Kwargs) = true ∧
    ∃ kw hdrs, retry_request ⟨200, []⟩ 2 ([] : Kwargs) = some kw ∧
      dget kw "headers" = some (PyVal.dict hdrs) ∧
      dget hdrs "X-Tio-Retry-Count" = some (toString 2) :=
  ⟨rfl, retry_request_retry_count ⟨200, []⟩ 2 ([] : Kwargs) rfl⟩

/-- C6: when kwargs already carries a `'headers'` dict, `_retry_request`
leaves every kwargs entry other than `'headers'` unchanged, and every
headers entry other than the two correlation keys unchanged. -/
theorem retry_request_frame (response : Response) (n : Nat) (kwargs : Kwargs)
    (h0 : List (String × String))
    (hh : dget kwargs "headers" = some (PyVal.dict h0)) :
    ∃ kw hdrs, retry_request response n kwargs = some kw ∧
      dget kw "headers" = some (PyVal.dict hdrs) ∧
      (∀ k, k ≠ "headers" → dget kw k = dget kwargs k) ∧
      (∀ k, k ≠ "X-Tio-Retry-Count" → k ≠ "X-Tio-Last-Request-Uuid" →
        dget hdrs k = dget h0 k) := by
  have he : ensureHeaders kwargs = kwargs := by
    unfold ensureHeaders
    rw [hh]
  have hh2 : dget (ensureHeaders kwargs) "headers" = some (PyVal.dict h0) := by
    rw [he]
    exact hh
  refine ⟨_, _, retry_request_eq response n kwargs h0 hh2,
    dget_dset_self _ _ _, ?_, ?_⟩
  · intro k hk
    rw [he]
    exact dget_dset_ne kwargs "headers" k _ hk
  · intro k hk1 hk2
    rw [dget_dset_ne _ _ _ _ hk1]
    exact dget_addCorrelation_ne response.headers h0 k hk2

/-- A concrete kwargs dict with a `'params'` entry and a pre-populated
headers dict, for exercising the frame property. -/
def frameKwargs : Kwargs :=
  [("params", PyVal.str "x"), ("headers", PyVal.dict [("User-Agent", "ua")])]

/-- Witness for `retry_request_frame` at a concrete kwargs dict. -/
theorem retry_request_frame_witness :
    ∃ kw hdrs, retry_request ⟨429, [("X-Request-Uuid", "abc")]⟩ 1 frameKwargs = some kw ∧
      dget kw "headers" = some (PyVal.dict hdrs) ∧
      (∀ k, k ≠ "headers" → dget kw k = dget frameKwargs k) ∧
      (∀ k, k ≠ "X-Tio-Retry-Count" → k ≠ "X-Tio-Last-Request-Uuid" →
        dget hdrs k = dget [("User-Agent", "ua")] k) :=
  retry_request_frame ⟨429, [("X-Request-Uuid", "abc")]⟩ 1 frameKwargs
    [("User-Agent", "ua")] (by decide)

/-- The headers dict of the kwargs returned by `_retry_request`, read back
out (empty when the call failed or left no dict). -/
def resultHeaders (r : Option Kwargs) : List (String × String) :=
  match r with
  | some kw => (kwHeaders kw).getD []
  | none => []

/-- A response carrying no `X-Request-Uuid` header. -/
def noUuidResp : Response := { status := 429, headers := [] }

/-- A kwargs dict whose headers already carry `X-Tio-Last-Request-Uuid`. -/
def staleUuidKwargs : Kwargs :=
  [("headers", PyVal.dict [("X-Tio-Last-Request-Uuid", "aaaa")])]

/-- C5 as stated is false: when the incoming headers already contain
`'X-Tio-Last-Request-Uuid'` and the response has no `'X-Request-Uuid'`, the
stale key survives in the returned headers, so the "only if" direction
fails. -/
theorem retry_request_correlation_counterexample :
    ¬ ((dget (resultHeaders (retry_request noUuidResp 1 staleUuidKwargs))
          "X-Tio-Last-Request-Uuid").isSome
        ↔ (dget noUuidResp.headers "X-Request-Uuid").isSome) := by decide

/-- C5 amended: the returned headers contain `'X-Tio-Last-Request-Uuid'` iff
the response headers contain `'X-Request-Uuid'` or the incoming headers
already contained `'X-Tio-Last-Request-Uuid'`; whenever the response has
`'X-Request-Uuid'`, the returned value equals it. -/
theorem retry_request_correlation (response : Response) (n : Nat) (kwargs : Kwargs)
    (hwf : headersWF kwargs = true) :
    ∃ kw hdrs, retry_request response n kwargs = some kw ∧
      dget kw "headers" = some (PyVal.dict hdrs) ∧
      ((dget hdrs "X-Tio-Last-Request-Uuid").isSome
        ↔ ((dget response.headers "X-Request-Uuid").isSome ∨
           (dget ((kwHeaders kwargs).getD []) "X-Tio-Last-Request-Uuid").isSome)) ∧
      (∀ v, dget response.headers "X-Request-Uuid" = some v →
        dget hdrs "X-Tio-Last-Request-Uuid" = some v) := by
  obtain ⟨h0, hh, hcase⟩ := ensureHeaders_dict kwargs hwf
  have hkw0 : (kwHeaders kwargs).getD [] = h0 := by
    unfold kwHeaders
    rcases hcase with h | ⟨h, rfl⟩ <;> rw [h] <;> rfl
  have hne : ("X-Tio-Last-Request-Uuid" : String) ≠ "X-Tio-Retry-Count" := by decide
  refine ⟨_, _, retry_request_eq response n kwargs h0 hh,
    dget_dset_self _ _ _, ?_, ?_⟩
  · rw [hkw0, dget_dset_ne _ _ _ _ hne]
    unfold addCorrelation
    cases hru : dget response.headers "X-Request-Uuid" with
    | none => simp
    | some v => simp [dget_dset_self]
  · intro v hv
    rw [dget_dset_ne _ _ _ _ hne]
    unfold addCorrelation
    rw [hv]
    exact dget_dset_self _ _ _

/-- Witness for `retry_request_correlation` at a response carrying an
`X-Request-Uuid` header. -/
theorem retry_request_correlation_witness :
    headersWF staleUuidKwargs = true ∧
    ∃ kw hdrs, retry_request ⟨500, [("X-Request-Uuid", "u1")]⟩ 3 staleUuidKwargs = some kw ∧
      dget kw "headers" = some (PyVal.dict hdrs) ∧
      ((dget hdrs "X-Tio-Last-Request-Uuid").isSome
        ↔ ((dget (Response.mk 500 [("X-Request-Uuid", "u1")]).headers "X-Request-Uuid").isSome ∨
           (dget ((kwHeaders staleUuidKwargs).getD []) "X-Tio-Last-Request-Uuid").isSome)) ∧
      (∀ v, dget (Response.mk 500 [("X-Request-Uuid", "u1")]).headers "X-Request-Uuid" = some v →
        dget hdrs "X-Tio-Last-Request-Uuid" = some v) :=
  ⟨by decide, retry_request_correlation ⟨500, [("X-Request-Uuid", "u1")]⟩ 3 staleUuidKwargs (by decide)⟩

/-- Modelled from the spec: the retry predicate lives in
`tenable.base.APISession` (not under `src/`); the spec says the transport
"performs retry-with-backoff on 429/5xx". -/
def isRetryable (status : Nat) : Bool :=
  status == 429 || (500 ≤ status && status < 600)

/-- Modelled from the spec: the request loop of `tenable.base.APISession`
(not under `src/`); the spec says there are "no failure semantics beyond
retry N times, then raise". `resp i` is the response to attempt `i`; `left`
counts the retries still allowed. The loop returns the final outcome paired
with the number of attempts made so far. -/
def requestLoop (resp : Nat → Response) : Nat → Nat → Except Response Response × Nat
  | left, attempt =>
    let r := resp attempt
    if isRetryable r.status then
      match left with
      | 0 => (Except.error r, attempt + 1)
      | n + 1 => requestLoop resp n (attempt + 1)
    else (Except.ok r, attempt + 1)

/-- Modelled from the spec: issue a request with `retries` retries allowed,
starting at attempt 0. -/
def runRequest (retries : Nat) (resp : Nat → Response) :
    Except Response Response × Nat :=
  requestLoop resp retries 0

theorem requestLoop_all_retryable (resp : Nat → Response)
    (hall : ∀ i, isRetryable (resp i).status = true) :
    ∀ left attempt, requestLoop resp left attempt =
      (Except.error (resp (attempt + left)), attempt + left + 1) := by
  intro left
  induction left with
  | zero =>
    intro attempt
    unfold requestLoop
    simp [hall attempt]
  | succ n ih =>
    intro attempt
    unfold requestLoop
    simp only [hall attempt, if_true]
    have hn : attempt + 1 + n = attempt + (n + 1) := by omega
    rw [ih (attempt + 1), hn]

/-- C2: when every attempt draws a retryable response, the request is
retried exactly `retries` times — `retries + 1` attempts in total — and then
the final error response is raised. -/
theorem run_request_exhausts_retries (retries : Nat) (resp : Nat → Response)
    (hall : ∀ i, isRetryable (resp i).status = true) :
    runRequest retries resp = (Except.error (resp retries), retries + 1) := by
  unfold runRequest
  rw [requestLoop_all_retryable resp hall retries 0]
  simp

/-- Witness for `run_request_exhausts_retries`: a server that always answers
429 defeats 3 retries, for 4 attempts in total. -/
theorem run_request_exhausts_retries_witness :
    runRequest 3 (fun _ => ⟨429, []⟩) = (Except.error ⟨429, []⟩, 4) :=
  run_request_exhausts_retries 3 (fun _ => ⟨429, []⟩) (fun _ => rfl)

theorem requestLoop_attempts_pos (resp : Nat → Response) :
    ∀ left attempt, attempt + 1 ≤ (requestLoop resp left attempt).2 := by
  intro left
  induction left with
  | zero =>
    intro attempt
    unfold requestLoop
    by_cases h : isRetryable (resp attempt).status <;> simp [h]
  | succ n ih =>
    intro attempt
    unfold requestLoop
    by_cases h : isRetryable (resp attempt).status
    · simp only [h, if_true]
      have := ih (attempt + 1)
      omega
    · simp [h]

/-- C3: with at least one retry allowed, the transport makes a second
attempt exactly when the first response's status is 429 or 5xx; any other
status is answered without a retry. -/
theorem retry_iff_429_or_5xx (n : Nat) (resp : Nat → Response) :
    2 ≤ (runRequest (n + 1) resp).2 ↔
      ((resp 0).status = 429 ∨ (500 ≤ (resp 0).status ∧ (resp 0).status ≤ 599)) := by
  have hchar : isRetryable (resp 0).status = true ↔
      ((resp 0).status = 429 ∨ (500 ≤ (resp 0).status ∧ (resp 0).status ≤ 599)) := by
    simp only [isRetryable, Bool.or_eq_true, Bool.and_eq_true, beq_iff_eq,
      decide_eq_true_eq]
    omega
  rw [← hchar]
  unfold runRequest requestLoop
  by_cases h : isRetryable (resp 0).status
  · rw [if_pos h]
    constructor
    · intro _
      exact h
    · intro _
      exact requestLoop_attempts_pos resp n (0 + 1)
  · simp [h]

/-- The `_tzcache` attribute: `None` initially
(`src/tenable/io/__init__.py:114`), or the list returned by
`scans.timezones()` once stored. -/
inductive TzCache where
  | pynone
  | pylist (l : List String)
  deriving DecidableEq

/-- Python truthiness of `_tzcache`: `None` and the empty list are falsy. -/
def TzCache.truthy : TzCache → Bool
  | .pynone => false
  | .pylist l => !l.isEmpty

/-- The value a truthy or stored cache yields. -/
def TzCache.value : TzCache → List String
  | .pynone => []
  | .pylist l => l

/-- The `_tz` property (`src/tenable/io/__init__.py:217-226`):
`if not self._tzcache: self._tzcache = self.scans.timezones()` then
`return self._tzcache`. `timezones` is what `scans.timezones()` would
return on this access; the result is the returned list, the new `_tzcache`,
and whether `scans.timezones()` was called. -/
def tzAccess (cache : TzCache) (timezones : List String) :
    List String × TzCache × Bool :=
  if cache.truthy then (cache.value, cache, false)
  else (timezones, TzCache.pylist timezones, true)

/-- C7: a truthy cached value is returned unchanged with no new
`scans.timezones()` call; a falsy cache (initial `None` or a stored empty
list) triggers the call again and stores its result. -/
theorem tz_cache_behaviour (c : TzCache) (tz tz2 : List String) :
    (c.truthy = true → tzAccess c tz = (c.value, c, false)) ∧
    (c.truthy = false → tzAccess c tz = (tz, TzCache.pylist tz, true)) ∧
    (tz ≠ [] → tzAccess (TzCache.pylist tz) tz2 = (tz, TzCache.pylist tz, false)) ∧
    (tzAccess (TzCache.pylist []) tz2 = (tz2, TzCache.pylist tz2, true)) := by
  refine ⟨fun h => ?_, fun h => ?_, fun h => ?_, ?_⟩
  · simp [tzAccess, h]
  · simp [tzAccess, h]
  · simp [tzAccess, TzCache.truthy, TzCache.value, h]
  · simp [tzAccess, TzCache.truthy]

/-- Witness for `tz_cache_behaviour`: a first access on the initial `None`
cache calls out and stores; a second access on the stored nonempty list
returns it without calling. -/
theorem tz_cache_behaviour_witness :
    TzCache.pynone.truthy = false ∧
    tzAccess TzCache.pynone ["UTC"] = (["UTC"], TzCache.pylist ["UTC"], true) ∧
    (["UTC"] : List String) ≠ [] ∧
    tzAccess (TzCache.pylist ["UTC"]) ["EST"] =
      (["UTC"], TzCache.pylist ["UTC"], false) :=
  ⟨rfl, (tz_cache_behaviour TzCache.pynone ["UTC"] ["EST"]).2.1 rfl, by decide,
    (tz_cache_behaviour TzCache.pynone ["UTC"] ["EST"]).2.2.1 (by decide)⟩

/-- The endpoint façade classes grafted onto `TenableIO`
(`src/tenable/io/__init__.py:117-215`): each constructor is one `...API`
class, carrying the `TenableIO` instance it was constructed with. `T` is
the type of the `TenableIO` instance. -/
inductive Facade (T : Type) where
  | AgentConfigAPI (owner : T)
  | AgentGroupsAPI (owner : T)
  | AgentExclusionsAPI (owner : T)
  | AgentsAPI (owner : T)
  | AssetsAPI (owner : T)
  | AuditLogAPI (owner : T)
  | EditorAPI (owner : T)
  | ExclusionsAPI (owner : T)
  | ExportsAPI (owner : T)
  | FileAPI (owner : T)
  | FiltersAPI (owner : T)
  | FoldersAPI (owner : T)
  | GroupsAPI (owner : T)
  | PermissionsAPI (owner : T)
  | PluginsAPI (owner : T)
  | PoliciesAPI (owner : T)
  | ScannerGroupsAPI (owner : T)
  | ScannersAPI (owner : T)
  | ScansAPI (owner : T)
  | ServerAPI (owner : T)
  | SessionAPI (owner : T)
  | TagsAPI (owner : T)
  | TargetGroupsAPI (owner : T)
  | UsersAPI (owner : T)
  | WorkbenchesAPI (owner : T)
  deriving DecidableEq

/-- The constructor argument of a façade: every `...API` class keeps the
`TenableIO` instance handed to its constructor and routes each endpoint
call through it. -/
def Facade.owner {T : Type} : Facade T → T
  | .AgentConfigAPI t => t
  | .AgentGroupsAPI t => t
  | .AgentExclusionsAPI t => t
  | .AgentsAPI t => t
  | .AssetsAPI t => t
  | .AuditLogAPI t => t
  | .EditorAPI t => t
  | .ExclusionsAPI t => t
  | .ExportsAPI t => t
  | .FileAPI t => t
  | .FiltersAPI t => t
  | .FoldersAPI t => t
  | .GroupsAPI t => t
  | .PermissionsAPI t => t
  | .PluginsAPI t => t
  | .PoliciesAPI t => t
  | .ScannerGroupsAPI t => t
  | .ScannersAPI t => t
  | .ScansAPI t => t
  | .ServerAPI t => t
  | .SessionAPI t => t
  | .TagsAPI t => t
  | .TargetGroupsAPI t => t
  | .UsersAPI t => t
  | .WorkbenchesAPI t => t

namespace Tio

def agent_config {T : Type} (t : T) : Facade T := .AgentConfigAPI t

def agent_groups {T : Type} (t : T) : Facade T := .AgentGroupsAPI t

def agent_exclusions {T : Type} (t : T) : Facade T := .AgentExclusionsAPI t

def agents {T : Type} (t : T) : Facade T := .AgentsAPI t

def assets {T : Type} (t : T) : Facade T := .AssetsAPI t

def audit_log {T : Type} (t : T) : Facade T := .AuditLogAPI t

def editor {T : Type} (t : T) : Facade T := .EditorAPI t

def exclusions {T : Type} (t : T) : Facade T := .ExclusionsAPI t

def exports {T : Type} (t : T) : Facade T := .ExportsAPI t

def files {T : Type} (t : T) : Facade T := .FileAPI t

def filters {T : Type} (t : T) : Facade T := .FiltersAPI t

def folders {T : Type} (t : T) : Facade T := .FoldersAPI t

def groups {T : Type} (t : T) : Facade T := .GroupsAPI t

def permissions {T : Type} (t : T) : Facade T := .PermissionsAPI t

def plugins {T : Type} (t : T) : Facade T := .PluginsAPI t

def policies {T : Type} (t : T) : Facade T := .PoliciesAPI t

def scanner_groups {T : Type} (t : T) : Facade T := .ScannerGroupsAPI t

def scanners {T : Type} (t : T) : Facade T := .ScannersAPI t

def scans {T : Type} (t : T) : Facade T := .ScansAPI t

def server {T : Type} (t : T) : Facade T := .ServerAPI t

def session {T : Type} (t : T) : Facade T := .SessionAPI t

def tags {T : Type} (t : T) : Facade T := .TagsAPI t

def target_groups {T : Type} (t : T) : Facade T := .TargetGroupsAPI t

def users {T : Type} (t : T) : Facade T := .UsersAPI t

def workbenches {T : Type} (t : T) : Facade T := .WorkbenchesAPI t

end Tio

/-- C8: every endpoint-area property of `TenableIO` returns a façade whose
constructor argument is the `TenableIO` instance itself, so every façade
delegates to the same session transport. -/
theorem facades_share_owner (T : Type) (t : T) :
    (Tio.agent_config t).owner = t ∧
    (Tio.agent_groups t).owner = t ∧
    (Tio.agent_exclusions t).owner = t ∧
    (Tio.agents t).owner = t ∧
    (Tio.assets t).owner = t ∧
    (Tio.audit_log t).owner = t ∧
    (Tio.editor t).owner = t ∧
    (Tio.exclusions t).owner = t ∧
    (Tio.exports t).owner = t ∧
    (Tio.files t).owner = t ∧
    (Tio.filters t).owner = t ∧
    (Tio.folders t).owner = t ∧
    (Tio.groups t).owner = t ∧
    (Tio.permissions t).owner = t ∧
    (Tio.plugins t).owner = t ∧
    (Tio.policies t).owner = t ∧
    (Tio.scanner_groups t).owner = t ∧
    (Tio.scanners t).owner = t ∧
    (Tio.scans t).owner = t ∧
    (Tio.server t).owner = t ∧
    (Tio.session t).owner = t ∧
    (Tio.tags t).owner = t ∧
    (Tio.target_groups t).owner = t ∧
    (Tio.users t).owner = t ∧
    (Tio.workbenches t).owner = t :=
  ⟨rfl, rfl, rfl, rfl, rfl, rfl, rfl, rfl, rfl, rfl, rfl, rfl, rfl,
   rfl, rfl, rfl, rfl, rfl, rfl, rfl, rfl, rfl, rfl, rfl, rfl⟩

/-- An HTTP verb of the raw-call primitives. -/
inductive Verb where
  | get
  | post
  | put
  | delete
  deriving DecidableEq

/-- A request handed to the underlying requests session. -/
structure HttpRequest where
  verb : Verb
  url : String
  deriving DecidableEq

/-- Modelled from the spec: the response-code check of
`tenable.base.APISession` (not under `src/`); per the module docstring the
raw methods go through no naturalization "aside from the response code
checking", so a success status passes the `requests` Response straight
through and an error status raises it. -/
def resp_error_check (r : Response) : Except Response Response :=
  if r.status < 400 then Except.ok r else Except.error r

/-- Modelled from the spec: the verb-level primitives `get`/`post`/`put`/
`delete` of `tenable.base.APISession` (not under `src/`); per the module
docstring they "route directly into the requests session" and "the path is
appended to the base url paramater that the TenableIO object was
instantiated with". `sess` is the underlying requests session. -/
def rawCall (sess : HttpRequest → Response) (base : String) (v : Verb)
    (path : String) : Except Response Response :=
  resp_error_check (sess { verb := v, url := base ++ "/" ++ path })

def tioGet (sess : HttpRequest → Response) (base path : String) :
    Except Response Response :=
  rawCall sess base Verb.get path

def tioPost (sess : HttpRequest → Response) (base path : String) :
    Except Response Response :=
  rawCall sess base Verb.post path

def tioPut (sess : HttpRequest → Response) (base path : String) :
    Except Response Response :=
  rawCall sess base Verb.put path

def tioDelete (sess : HttpRequest → Response) (base path : String) :
    Except Response Response :=
  rawCall sess base Verb.delete path

/-- C9: each of the four raw primitives sends the request for its verb to
the requests session at the base url with the path appended, and applies
nothing but the response-code check: a passing response comes back
unchanged, a failing one is raised. -/
theorem raw_verbs_route_to_session (sess : HttpRequest → Response)
    (base path : String) :
    tioGet sess base path =
      resp_error_check (sess { verb := Verb.get, url := base ++ "/" ++ path }) ∧
    tioPost sess base path =
      resp_error_check (sess { verb := Verb.post, url := base ++ "/" ++ path }) ∧
    tioPut sess base path =
      resp_error_check (sess { verb := Verb.put, url := base ++ "/" ++ path }) ∧
    tioDelete sess base path =
      resp_error_check (sess { verb := Verb.delete, url := base ++ "/" ++ path }) ∧
    (∀ r : Response, r.status < 400 → resp_error_check r = Except.ok r) ∧
    (∀ r : Response, 400 ≤ r.status → resp_error_check r = Except.error r) := by
  refine ⟨rfl, rfl, rfl, rfl, fun r h => ?_, fun r h => ?_⟩
  · simp [resp_error_check, h]
  · simp [resp_error_check, Nat.not_lt.mpr h]

/-- Witness for `raw_verbs_route_to_session` at a concrete session: a GET of
`'scans'` against the default url hits `https://cloud.tenable.com/scans`
and a 200 response is returned as-is. -/
theorem raw_verbs_route_to_session_witness :
    tioGet (fun q => if q.url = "https://cloud.tenable.com/scans" then ⟨200, []⟩ else ⟨404, []⟩)
        "https://cloud.tenable.com" "scans" =
      Except.ok ⟨200, []⟩ ∧
    (200 : Nat) < 400 := by
  constructor
  · have h := (raw_verbs_route_to_session
      (fun q => if q.url = "https://cloud.tenable.com/scans" then ⟨200, []⟩ else ⟨404, []⟩)
      "https://cloud.tenable.com" "scans").1
    rw [h]
    rfl
  · decide

/-- The class attribute `_url = 'https://cloud.tenable.com'`
(`src/tenable/io/__init__.py:115`). -/
def defaultUrl : String := "https://cloud.tenable.com"

/-- Modelled from the spec: `tenable.base.APISession.__init__` (not under
`src/`) receives the constructor's `url` argument; per the spec the base URL
"that the paths will be appended onto" defaults to
`https://cloud.tenable.com` when the argument is omitted (`None`). -/
def resolveUrl (url : Option String) : String :=
  match url with
  | none => defaultUrl
  | some u => u

/-- C10: when the `url` constructor argument is omitted or `None`, the base
URL every request path is appended onto is `https://cloud.tenable.com`. -/
theorem default_url_when_none : resolveUrl none = "https://cloud.tenable.com" := rfl
